import Mathlib

/-!
Shallow embedding of the note-generation pipeline of the YouTube-Notes Chrome
extension:

* `getTranscriptPy` — the helper script `get_transcript.py` (transcript
  retrieval via the youtube_transcript_api, joined with single spaces and
  printed as a JSON string literal);
* `transcriptRoute` — the `GET /transcript` handler of the Express server
  `index.js` (validate videoId, spawn the helper via `exec`, `JSON.parse` its
  stdout, call the Gemini model, answer 200/400/500);
* `contentListener` — the `getTranscript` message listener of `content.js`
  (read the page's `v` query parameter, call the server, relay the result);
* `popupCallback` — the `sendMessage` response callback inside the
  `generateNotes` click handler of `popup.js` (clear the busy indicator,
  store the notes keyed by video id, render or show the error).

External collaborators (the transcript API, the spawned process, the Gemini
provider, the network fetch, `marked.parse`) are parameters of the embedded
functions; their possible behaviours, including never completing, are explicit
constructors so that control flow, call counts and hangs are provable facts.
-/

/-- JS truthiness of an optional string field: `undefined`/`null` and the
empty string are falsy, every other string is truthy. -/
def truthy : Option String → Bool
  | none => false
  | some s => if s = "" then false else true

/-- Top-level scalar JSON values. On this process boundary the helper emits
only a JSON string literal, so arrays, objects and non-integer numbers never
occur; they are modelled as parse failures. -/
inductive JsValue
  | str (s : String)
  | num (n : Int)
  | jbool (b : Bool)
  | jnull
deriving DecidableEq, Repr

/-- String a JS value is interpolated to inside a template literal. -/
def JsValue.interp : JsValue → String
  | .str s => s
  | .num n => toString n
  | .jbool true => "true"
  | .jbool false => "false"
  | .jnull => "null"

/-- Lower-case hex digit of a value below 16. -/
def hexDigit (n : Nat) : Char :=
  if n < 10 then Char.ofNat (48 + n) else Char.ofNat (87 + n)

/-- Escaping of one character inside a JSON string literal, as `json.dumps`
performs it: quote, backslash and the named control characters get two-character
escapes, remaining control characters get a `\u00XX` escape, everything else is
emitted verbatim. -/
def jsonEscapeChar (c : Char) : List Char :=
  if c = '"' then ['\\', '"']
  else if c = '\\' then ['\\', '\\']
  else if c = '\n' then ['\\', 'n']
  else if c = '\t' then ['\\', 't']
  else if c = '\r' then ['\\', 'r']
  else if c = '\x08' then ['\\', 'b']
  else if c = '\x0c' then ['\\', 'f']
  else if c.toNat < 32 then
    let hi := hexDigit (c.toNat / 16)
    let lo := hexDigit (c.toNat % 16)
    '\\' :: 'u' :: '0' :: '0' :: hi :: [lo]
  else [c]

/-- `json.dumps` applied to a string: the escaped characters between quotes. -/
def jsonDumpsString (s : String) : String :=
  ⟨'"' :: ((s.data.map jsonEscapeChar).flatten ++ ['"'])⟩

/-- Value of a hex digit character. -/
def hexVal (c : Char) : Option Nat :=
  if '0' ≤ c ∧ c ≤ '9' then some (c.toNat - 48)
  else if 'a' ≤ c ∧ c ≤ 'f' then some (c.toNat - 87)
  else if 'A' ≤ c ∧ c ≤ 'F' then some (c.toNat - 55)
  else none

/-- Decoding of a two-character JSON escape. -/
def escDecode (e : Char) : Option Char :=
  if e = '"' then some '"'
  else if e = '\\' then some '\\'
  else if e = '/' then some '/'
  else if e = 'n' then some '\n'
  else if e = 't' then some '\t'
  else if e = 'r' then some '\r'
  else if e = 'b' then some '\x08'
  else if e = 'f' then some '\x0c'
  else none

/-- Parse the body of a JSON string literal after the opening quote: returns
the decoded characters together with the input remaining after the closing
quote, failing on unterminated literals, bad escapes and raw control
characters, as `JSON.parse` does. -/
def parseJsonStringBody : List Char → Option (List Char × List Char)
  | [] => none
  | c :: rest =>
    if c = '"' then some ([], rest)
    else if c = '\\' then
      match rest with
      | [] => none
      | e :: rest2 =>
        if e = 'u' then
          match rest2 with
          | a :: b :: c3 :: d :: rest3 =>
            match hexVal a, hexVal b, hexVal c3, hexVal d with
            | some x, some y, some z, some w =>
              (parseJsonStringBody rest3).map
                (fun p => (Char.ofNat (((x * 16 + y) * 16 + z) * 16 + w) :: p.1, p.2))
            | _, _, _, _ => none
          | _ => none
        else
          match escDecode e with
          | some ch => (parseJsonStringBody rest2).map (fun p => (ch :: p.1, p.2))
          | none => none
    else if c.toNat < 32 then none
    else (parseJsonStringBody rest).map (fun p => (c :: p.1, p.2))

/-- Value of an all-digit character list read in base 10. -/
def digitsToNat (ds : List Char) : Nat :=
  ds.foldl (fun acc c => acc * 10 + (c.toNat - 48)) 0

/-- A JSON integer literal: an optional minus sign followed by digits. -/
def parseIntLit (cs : List Char) : Option Int :=
  match cs with
  | '-' :: ds =>
    if ds ≠ [] ∧ ds.all Char.isDigit then some (-(digitsToNat ds : Int)) else none
  | ds =>
    if ds ≠ [] ∧ ds.all Char.isDigit then some (digitsToNat ds : Int) else none

/-- `JSON.parse` on an already-trimmed input, restricted to the top-level
scalars that can appear on the helper's stdout: a string literal, `null`,
`true`, `false` or an integer literal; every other input is a parse failure
(an exception in the JS source). -/
def jsParseChars (cs : List Char) : Option JsValue :=
  match cs with
  | '"' :: rest =>
    match parseJsonStringBody rest with
    | some (body, []) => some (JsValue.str ⟨body⟩)
    | _ => none
  | _ =>
    if cs = "null".data then some .jnull
    else if cs = "true".data then some (.jbool true)
    else if cs = "false".data then some (.jbool false)
    else
      match parseIntLit cs with
      | some n => some (.num n)
      | none => none

/-- `JSON.parse` of a whole string (see `jsParseChars`). -/
def jsParse (s : String) : Option JsValue :=
  jsParseChars s.data

/-- JS `String.prototype.trim`: drop whitespace from both ends. -/
def jsTrim (s : String) : String :=
  ⟨((s.data.dropWhile Char.isWhitespace).reverse.dropWhile Char.isWhitespace).reverse⟩

/-- One segment of the transcript returned by `YouTubeTranscriptApi`; only its
`text` field is consumed by the helper. -/
structure TranscriptEntry where
  text : String
deriving DecidableEq, Repr

/-- Behaviour of `YouTubeTranscriptApi.get_transcript`: it raises (captions
disabled, network failure, …) or returns the ordered segment list. -/
inductive ApiBehavior
  | raises (msg : String)
  | returns (entries : List TranscriptEntry)

/-- Observable outcome of the helper process: JSON on stdout with exit code 0,
or a message on stderr with exit code 1. -/
inductive HelperResult
  | success (stdout : String)
  | failure (stderr : String)
deriving DecidableEq, Repr

/-- The body of `get_transcript.py`: fetch the transcript for the id, join the
segments' `text` fields with single spaces, print the `json.dumps` of the
joined string; on any exception print `Error: <msg>` to stderr and exit 1. -/
def getTranscriptPy (videoId : String) (api : String → ApiBehavior) : HelperResult :=
  match api videoId with
  | .raises m => .failure ("Error: " ++ m)
  | .returns entries =>
    .success (jsonDumpsString (String.intercalate " " (entries.map (·.text))))

/-- Behaviour of the `exec`-spawned helper as the server's callback sees it:
never calls back, calls back with a non-null error (non-zero exit), or calls
back with exit 0 and the captured stdout. -/
inductive ExecBehavior
  | hangs
  | fails (stderr : String)
  | succeeds (stdout : String)

/-- Behaviour of the Gemini `generateContent` call on a given prompt: never
resolves, rejects (auth, quota, network, …), or resolves with the response
text. -/
inductive GeminiBehavior
  | hangs
  | throws (msg : String)
  | returns (text : String)

/-- A JSON response of the server, with optional `notes`, `videoId` and
`error` fields. -/
structure HttpResponse where
  status : Nat
  notes : Option String := none
  videoId : Option String := none
  error : Option String := none
deriving DecidableEq, Repr

/-- Outcome of one request to the route: an HTTP response is sent, the handler
throws an unhandled exception (no response), or it waits forever on an
external call that never completes (no response). -/
inductive RunOutcome
  | responds (r : HttpResponse)
  | crashes
  | pending
deriving DecidableEq, Repr

/-- One run of the route together with how many times each external
collaborator was invoked. -/
structure RunTrace where
  outcome : RunOutcome
  fetcherCalls : Nat
  summarizerCalls : Nat
deriving DecidableEq, Repr

/-- The prompt `index.js` builds around the parsed transcript. -/
def promptFor (transcript : String) : String :=
  "Summarize the following YouTube transcript into short, clear bullet-point notes:\n\n"
    ++ transcript

/-- The `GET /transcript` handler of `index.js`. `videoId?` is
`req.query.videoId`; a falsy value is answered 400 before anything is spawned.
Otherwise the helper is spawned once; a non-null `exec` error is answered
500 `Failed to fetch transcript`. On exit 0 the stdout is trimmed and fed to
`JSON.parse` outside any try/catch, so a parse failure is an unhandled
exception. The parsed value is interpolated into the prompt and sent to
Gemini inside try/catch; a rejection is answered 500 `Failed to generate notes
using Gemini` and a resolution is answered 200 with `res.json` of
`notes: summary` only — the source does not put a videoId field in the success
body. -/
def transcriptRoute (videoId? : Option String) (execPy : String → ExecBehavior)
    (gemini : String → GeminiBehavior) : RunTrace :=
  if truthy videoId? then
    match execPy (videoId?.getD "") with
    | .hangs => ⟨.pending, 1, 0⟩
    | .fails _ => ⟨.responds ⟨500, none, none, some "Failed to fetch transcript"⟩, 1, 0⟩
    | .succeeds stdout =>
      match jsParse (jsTrim stdout) with
      | none => ⟨.crashes, 1, 0⟩
      | some tv =>
        match gemini (promptFor tv.interp) with
        | .hangs => ⟨.pending, 1, 1⟩
        | .throws _ =>
          ⟨.responds ⟨500, none, none, some "Failed to generate notes using Gemini"⟩, 1, 1⟩
        | .returns summary => ⟨.responds ⟨200, some summary, none, none⟩, 1, 1⟩
  else ⟨.responds ⟨400, none, none, some "videoId is required"⟩, 0, 0⟩

/-- Parsed JSON body of the server's response as `content.js` sees it after
`res.json()`; the relevant fields are read dynamically, so each is optional. -/
structure BackendData where
  notes : Option String := none
  error : Option String := none
  videoId : Option String := none
deriving DecidableEq, Repr

/-- Behaviour of the `fetch` to the server as observed by the promise chain in
`content.js`: a rejection anywhere in the chain, or a parsed JSON body. -/
inductive FetchBehavior
  | networkError
  | ok (data : BackendData)

/-- The object passed to `sendResponse` by the content script. -/
inductive BridgeResponse
  | notes (notes : String) (videoId : String)
  | error (msg : String)
deriving DecidableEq, Repr

/-- One handling of a message by the content script: what was sent back (none
when the action does not match and no response is sent) and whether the
backend was contacted. -/
structure BridgeTrace where
  response : Option BridgeResponse
  backendCalled : Bool
deriving DecidableEq, Repr

/-- `URLSearchParams.get`: first value bound to the key, if any. The page URL's
query string is modelled already parsed into key/value pairs. -/
def getParam (params : List (String × String)) (k : String) : Option String :=
  (params.find? (fun p => p.1 = k)).map (·.2)

/-- The `onMessage` listener of `content.js`: on action `getTranscript` it
reads the `v` query parameter of the page URL, answers
`error: No video ID found` without contacting the backend when it is falsy,
and otherwise fetches `/transcript` for that id. A truthy `notes` field of the
response body is relayed as `notes` together with the page's own videoId; any
other body is relayed as `data.error || "No notes returned."`; a rejected
fetch is relayed as `Backend error.`. -/
def contentListener (action : String) (pageParams : List (String × String))
    (backend : String → FetchBehavior) : BridgeTrace :=
  if action = "getTranscript" then
    let videoId? := getParam pageParams "v"
    if truthy videoId? then
      match backend (videoId?.getD "") with
      | .networkError => ⟨some (.error "Backend error."), true⟩
      | .ok data =>
        if truthy data.notes then
          ⟨some (.notes (data.notes.getD "") (videoId?.getD "")), true⟩
        else
          ⟨some (.error (if truthy data.error then data.error.getD "" else "No notes returned.")),
            true⟩
    else ⟨some (.error "No video ID found"), false⟩
  else ⟨none, false⟩

/-- The response object as `popup.js` reads it; fields are accessed
dynamically, so each is optional. -/
structure PopupResponse where
  notes : Option String := none
  error : Option String := none
  videoId : Option String := none
deriving DecidableEq, Repr

/-- The record the popup receives when the content script's `sendResponse`
argument crosses the message channel. -/
def BridgeResponse.toRecord : BridgeResponse → PopupResponse
  | .notes n v => ⟨some n, none, some v⟩
  | .error m => ⟨none, some m, none⟩

/-- The `chrome.storage.local` area holding one Note per VideoId. Modelled as
an association list; `storeSet` is `chrome.storage.local.set` with one
computed key, which overwrites any previous binding of that key and leaves
every other pair untouched (the storage area keeps keys unique,
last-write-wins). -/
abbrev NoteStore := List (String × String)

/-- Write one key (see `NoteStore`). -/
def storeSet (s : NoteStore) (k v : String) : NoteStore :=
  (k, v) :: s.filter (fun p => p.1 ≠ k)

/-- Read one key (`chrome.storage.local.get`). -/
def storeGet (s : NoteStore) (k : String) : Option String :=
  (s.find? (fun p => p.1 = k)).map (·.2)

/-- Number of entries stored under a key. -/
def keyCount (s : NoteStore) (k : String) : Nat :=
  (s.filter (fun p => p.1 = k)).length

/-- UI state of the popup: the output area's content, whether the loading
indicator is shown, whether the generate button is disabled and whether the
download button is hidden. -/
structure PopupUI where
  notesOutput : String
  loadingShown : Bool
  generateDisabled : Bool
  downloadHidden : Bool
deriving DecidableEq, Repr

/-- The `sendMessage` response callback inside the `generateNotes` click
handler of `popup.js`. The click handler has already cleared the output,
shown the loading indicator, disabled the button and hidden the download
button; the callback first hides the loading indicator and re-enables the
button. `lastError` models `chrome.runtime.lastError` (its message); when
present the error text is shown and nothing else happens. Otherwise a truthy
`response.notes` is stored under the key `response.videoId` (an absent
videoId becomes the literal key `undefined`, as a JS computed property name
does) and rendered through `marked.parse`; else a truthy `response.error` is
shown; else nothing further happens. The store is written on no other path. -/
def popupCallback (store : NoteStore) (markedParse : String → String)
    (lastError : Option String) (response : PopupResponse) : NoteStore × PopupUI :=
  let ui0 : PopupUI := ⟨"", false, false, true⟩
  match lastError with
  | some msg => (store, { ui0 with notesOutput := "Error: " ++ msg })
  | none =>
    if truthy response.notes then
      let rawNotes := response.notes.getD ""
      (storeSet store (response.videoId.getD "undefined") rawNotes,
        { ui0 with notesOutput := markedParse rawNotes, downloadHidden := false })
    else if truthy response.error then
      (store, { ui0 with notesOutput := response.error.getD "" })
    else (store, ui0)

theorem hexVal_hexDigit : ∀ k, k < 16 → hexVal (hexDigit k) = some k := by decide

theorem parseBody_escape (c : Char) (t : List Char) :
    parseJsonStringBody (jsonEscapeChar c ++ t)
      = (parseJsonStringBody t).map (fun p => (c :: p.1, p.2)) := by
  unfold jsonEscapeChar
  split_ifs with h1 h2 h3 h4 h5 h6 h7 h8
  · subst h1; rw [parseJsonStringBody.eq_def]; simp [escDecode]
  · subst h2; rw [parseJsonStringBody.eq_def]; simp [escDecode]
  · subst h3; rw [parseJsonStringBody.eq_def]; simp [escDecode]
  · subst h4; rw [parseJsonStringBody.eq_def]; simp [escDecode]
  · subst h5; rw [parseJsonStringBody.eq_def]; simp [escDecode]
  · subst h6; rw [parseJsonStringBody.eq_def]; simp [escDecode]
  · subst h7; rw [parseJsonStringBody.eq_def]; simp [escDecode]
  · have hd : c.toNat / 16 < 16 := by omega
    have hm : c.toNat % 16 < 16 := by omega
    simp only [List.cons_append, List.nil_append]
    rw [parseJsonStringBody.eq_def]
    simp [hexVal_hexDigit _ hd, hexVal_hexDigit _ hm,
      show hexVal '0' = some 0 from by decide]
    rw [show c.toNat / 16 * 16 + c.toNat % 16 = c.toNat from by omega]
    simp [Char.ofNat_toNat]
  · simp only [List.cons_append, List.nil_append]
    rw [parseJsonStringBody.eq_def]
    simp [h1, h2, h8]

theorem parseBody_roundtrip (cs rest : List Char) :
    parseJsonStringBody ((cs.map jsonEscapeChar).flatten ++ '"' :: rest)
      = some (cs, rest) := by
  induction cs with
  | nil => rw [parseJsonStringBody.eq_def]; simp
  | cons c cs ih =>
    simp only [List.map_cons, List.flatten_cons, List.append_assoc]
    rw [parseBody_escape, ih]
    rfl

theorem jsTrim_jsonDumpsString (s : String) :
    jsTrim (jsonDumpsString s) = jsonDumpsString s := by
  unfold jsTrim jsonDumpsString
  simp [List.dropWhile, List.reverse_append]

theorem jsParse_jsonDumpsString (s : String) :
    jsParse (jsonDumpsString s) = some (.str s) := by
  unfold jsParse jsonDumpsString jsParseChars
  simp only []
  rw [show ((s.data.map jsonEscapeChar).flatten ++ ['"']) = ((s.data.map jsonEscapeChar).flatten ++ '"' :: []) from rfl]
  simp [parseBody_roundtrip]

theorem keyCount_storeSet (s : NoteStore) (k v : String) :
    keyCount (storeSet s k v) k = 1 := by
  unfold keyCount storeSet
  rw [List.filter_cons_of_pos (by simp)]
  simp only [List.filter_filter]
  have h : (s.filter fun a => decide (a.1 = k) && decide ¬(a.1 = k)) = [] := by
    rw [List.filter_eq_nil_iff]
    intro a _
    simp
  simp_all

theorem storeGet_storeSet (s : NoteStore) (k v : String) :
    storeGet (storeSet s k v) k = some v := by
  unfold storeGet storeSet
  rw [List.find?_cons]
  simp

theorem transcriptRoute_succeeds (v stdout : String) (tv : JsValue)
    (execPy : String → ExecBehavior) (gemini : String → GeminiBehavior)
    (hv : v ≠ "") (hexec : execPy v = .succeeds stdout)
    (hparse : jsParse (jsTrim stdout) = some tv) :
    transcriptRoute (some v) execPy gemini
      = (match gemini (promptFor tv.interp) with
        | .hangs => ⟨.pending, 1, 1⟩
        | .throws _ =>
          ⟨.responds ⟨500, none, none, some "Failed to generate notes using Gemini"⟩, 1, 1⟩
        | .returns summary => ⟨.responds ⟨200, some summary, none, none⟩, 1, 1⟩) := by
  unfold transcriptRoute
  simp [truthy, hv, hexec, hparse]

/-- C1 (as stated, refuted): on a fully successful concrete run the server's
200 response carries the summary but its body has no videoId field, so the
response does not have the claimed shape carrying the requested id. -/
theorem C1_counterexample :
    (transcriptRoute (some "abc123")
      (fun _ => .succeeds "\"hello world this is a test\"")
      (fun _ => .returns "- point one\n- point two")).outcome
      = .responds ⟨200, some "- point one\n- point two", none, none⟩ ∧
    (transcriptRoute (some "abc123")
      (fun _ => .succeeds "\"hello world this is a test\"")
      (fun _ => .returns "- point one\n- point two")).outcome
      ≠ .responds ⟨200, some "- point one\n- point two", some "abc123", none⟩ := by
  exact ⟨by decide, by decide⟩

/-- C1 (amended): for every request with a valid non-empty videoId whose
transcript retrieval and summarization succeed (with a non-empty summary), the
server answers 200 with the summarizer's output unmodified as `notes` and no
videoId field in the body, and the bridge — supplying the page's own videoId —
forwards exactly the notes together with the identical videoId that was
requested to the UI. -/
theorem C1_amended_success_response (v stdout summary : String) (tv : JsValue)
    (execPy : String → ExecBehavior) (gemini : String → GeminiBehavior)
    (pageParams : List (String × String)) (backend : String → FetchBehavior)
    (hv : v ≠ "") (hexec : execPy v = .succeeds stdout)
    (hparse : jsParse (jsTrim stdout) = some tv)
    (hgem : gemini (promptFor tv.interp) = .returns summary)
    (hsum : summary ≠ "")
    (hpage : getParam pageParams "v" = some v)
    (hback : backend v = .ok ⟨some summary, none, none⟩) :
    transcriptRoute (some v) execPy gemini
      = ⟨.responds ⟨200, some summary, none, none⟩, 1, 1⟩ ∧
    contentListener "getTranscript" pageParams backend
      = ⟨some (.notes summary v), true⟩ := by
  constructor
  · rw [transcriptRoute_succeeds v stdout tv execPy gemini hv hexec hparse, hgem]
  · unfold contentListener
    simp [truthy, hpage, hv, hback, hsum]

/-- C1 witness: the amended claim at Scenario A's concrete inputs. -/
theorem C1_amended_success_response_witness :
    transcriptRoute (some "abc123")
      (fun _ => ExecBehavior.succeeds "\"hello world this is a test\"")
      (fun _ => GeminiBehavior.returns "- point one\n- point two")
      = ⟨.responds ⟨200, some "- point one\n- point two", none, none⟩, 1, 1⟩ ∧
    contentListener "getTranscript" [("v", "abc123")]
      (fun _ => FetchBehavior.ok ⟨some "- point one\n- point two", none, none⟩)
      = ⟨some (.notes "- point one\n- point two" "abc123"), true⟩ :=
  C1_amended_success_response "abc123" "\"hello world this is a test\""
    "- point one\n- point two" (.str "hello world this is a test")
    (fun _ => ExecBehavior.succeeds "\"hello world this is a test\"")
    (fun _ => GeminiBehavior.returns "- point one\n- point two")
    [("v", "abc123")]
    (fun _ => FetchBehavior.ok ⟨some "- point one\n- point two", none, none⟩)
    (by decide) rfl (by decide) rfl (by decide) (by decide) rfl

/-- C2: a request whose videoId is absent or empty is answered 400
`videoId is required` with zero fetcher and zero summarizer invocations, and a
page URL without a truthy `v` parameter makes the content script answer
`No video ID found` without contacting the backend. -/
theorem C2_invalid_request_no_calls (videoId? : Option String)
    (execPy : String → ExecBehavior) (gemini : String → GeminiBehavior)
    (pageParams : List (String × String)) (backend : String → FetchBehavior)
    (hvid : videoId? = none ∨ videoId? = some "")
    (hpage : getParam pageParams "v" = none ∨ getParam pageParams "v" = some "") :
    transcriptRoute videoId? execPy gemini
      = ⟨.responds ⟨400, none, none, some "videoId is required"⟩, 0, 0⟩ ∧
    contentListener "getTranscript" pageParams backend
      = ⟨some (.error "No video ID found"), false⟩ := by
  constructor
  · rcases hvid with h | h <;> subst h <;> simp [transcriptRoute, truthy]
  · rcases hpage with h | h <;>
      · unfold contentListener
        simp [truthy, h]

/-- C2 witness: Scenario B, an absent id on both hops. -/
theorem C2_invalid_request_no_calls_witness :
    transcriptRoute none (fun _ => ExecBehavior.hangs) (fun _ => GeminiBehavior.hangs)
      = ⟨.responds ⟨400, none, none, some "videoId is required"⟩, 0, 0⟩ ∧
    contentListener "getTranscript" [] (fun _ => FetchBehavior.networkError)
      = ⟨some (.error "No video ID found"), false⟩ :=
  C2_invalid_request_no_calls none (fun _ => ExecBehavior.hangs)
    (fun _ => GeminiBehavior.hangs) [] (fun _ => FetchBehavior.networkError)
    (Or.inl rfl) (Or.inl rfl)

/-- C3: when the helper process exits non-zero the server answers 500
`Failed to fetch transcript` and the summarizer is invoked zero times. -/
theorem C3_fetcher_failure_no_summarizer (v stderrMsg : String)
    (execPy : String → ExecBehavior) (gemini : String → GeminiBehavior)
    (hv : v ≠ "") (hexec : execPy v = .fails stderrMsg) :
    transcriptRoute (some v) execPy gemini
      = ⟨.responds ⟨500, none, none, some "Failed to fetch transcript"⟩, 1, 0⟩ := by
  unfold transcriptRoute
  simp [truthy, hv, hexec]

/-- C3 witness: Scenario C, a captions-disabled failure of the fetcher. -/
theorem C3_fetcher_failure_no_summarizer_witness :
    transcriptRoute (some "abc123")
      (fun _ => ExecBehavior.fails "Error: captions disabled")
      (fun _ => GeminiBehavior.returns "- unused")
      = ⟨.responds ⟨500, none, none, some "Failed to fetch transcript"⟩, 1, 0⟩ :=
  C3_fetcher_failure_no_summarizer "abc123" "Error: captions disabled"
    (fun _ => ExecBehavior.fails "Error: captions disabled")
    (fun _ => GeminiBehavior.returns "- unused")
    (by decide) rfl

/-- C4: on every failed generation run — a transport error reported through
`chrome.runtime.lastError`, or a response without truthy notes (error responses
included) — the popup callback leaves the NoteRecord store exactly as it was
and clears the busy state (loading hidden, generate button re-enabled); the
store is written only on the success path. -/
theorem C4_failed_run_leaves_store (store : NoteStore) (markedParse : String → String)
    (lastError : Option String) (response : PopupResponse)
    (hfail : lastError ≠ none ∨ truthy response.notes = false) :
    (popupCallback store markedParse lastError response).1 = store ∧
    (popupCallback store markedParse lastError response).2.loadingShown = false ∧
    (popupCallback store markedParse lastError response).2.generateDisabled = false := by
  unfold popupCallback
  cases lastError with
  | some msg => simp
  | none =>
    have hnotes : truthy response.notes = false := by
      rcases hfail with h | h
      · exact absurd rfl h
      · exact h
    simp only [hnotes]
    split_ifs <;> simp_all

/-- C4 witness: a fetcher-failure error response leaves a prior entry
byte-for-byte in place and clears the busy indicator. -/
theorem C4_failed_run_leaves_store_witness :
    (popupCallback [("abc123", "- old note")] (fun s => s) none
        ⟨none, some "Failed to fetch transcript", none⟩).1 = [("abc123", "- old note")] ∧
    (popupCallback [("abc123", "- old note")] (fun s => s) none
        ⟨none, some "Failed to fetch transcript", none⟩).2.loadingShown = false ∧
    (popupCallback [("abc123", "- old note")] (fun s => s) none
        ⟨none, some "Failed to fetch transcript", none⟩).2.generateDisabled = false :=
  C4_failed_run_leaves_store [("abc123", "- old note")] (fun s => s) none
    ⟨none, some "Failed to fetch transcript", none⟩ (Or.inr rfl)

/-- C5 (as stated, refuted): a run of the helper in which the transcript API
returns an empty segment list exits 0 and prints the JSON encoding of the
empty string — a successful fetch whose joined text is empty, which the helper
does not reclassify as a "no transcript" error. -/
theorem C5_counterexample :
    getTranscriptPy "abc123" (fun _ => .returns []) = .success "\"\"" ∧
    String.intercalate " " (([] : List TranscriptEntry).map (·.text)) = "" ∧
    jsParse (jsTrim "\"\"") = some (.str "") := by
  refine ⟨by decide, by decide, by decide⟩

/-- C5 (amended): whenever the transcript API returns a segment list the
helper succeeds, its stdout is the JSON encoding of the segments' text fields
joined in original order with single-space separators, and the server's
JSON-decoding step recovers exactly that joined text; success is however not
reclassified as an error when the joined text is empty — the helper fails
exactly when the API raises. -/
theorem C5_amended_join_order (videoId : String) (api : String → ApiBehavior)
    (entries : List TranscriptEntry) (msg : String)
    (hret : api videoId = .returns entries) :
    getTranscriptPy videoId api
      = .success (jsonDumpsString (String.intercalate " " (entries.map (·.text)))) ∧
    jsParse (jsTrim (jsonDumpsString (String.intercalate " " (entries.map (·.text)))))
      = some (.str (String.intercalate " " (entries.map (·.text)))) ∧
    getTranscriptPy videoId (fun _ => .raises msg) = .failure ("Error: " ++ msg) := by
  refine ⟨?_, ?_, rfl⟩
  · unfold getTranscriptPy
    rw [hret]
  · rw [jsTrim_jsonDumpsString]
    exact jsParse_jsonDumpsString _

/-- C5 witness: two ordered segments joined with a single space. -/
theorem C5_amended_join_order_witness :
    getTranscriptPy "abc123"
        (fun _ => .returns [⟨"hello world"⟩, ⟨"this is a test"⟩])
      = .success (jsonDumpsString (String.intercalate " "
          (([⟨"hello world"⟩, ⟨"this is a test"⟩] : List TranscriptEntry).map (·.text)))) ∧
    jsParse (jsTrim (jsonDumpsString (String.intercalate " "
          (([⟨"hello world"⟩, ⟨"this is a test"⟩] : List TranscriptEntry).map (·.text)))))
      = some (.str (String.intercalate " "
          (([⟨"hello world"⟩, ⟨"this is a test"⟩] : List TranscriptEntry).map (·.text)))) ∧
    getTranscriptPy "abc123" (fun _ => .raises "captions disabled")
      = .failure ("Error: " ++ "captions disabled") :=
  C5_amended_join_order "abc123"
    (fun _ => .returns [⟨"hello world"⟩, ⟨"this is a test"⟩])
    [⟨"hello world"⟩, ⟨"this is a test"⟩] "captions disabled" rfl

/-- C6: the claim says malformed helper output (exit 0, stdout not valid JSON)
is still answered with a structured retrieval-failure error; the code instead
feeds the stdout to `JSON.parse` outside any try/catch, so the handler throws
an unhandled exception and no response is sent — evaluated here at a concrete
malformed input; the summarizer is never reached. -/
theorem C6_malformed_stdout_crashes :
    transcriptRoute (some "abc123") (fun _ => .succeeds "not json")
      (fun _ => .returns "- notes") = ⟨.crashes, 1, 0⟩ := by
  decide

/-- C7 (as stated, refuted): a helper that never calls back, and a provider
call that never resolves, each leave the run pending forever — the
orchestrator produces no response at all, in particular not the corresponding
stage's 500 failure. -/
theorem C7_counterexample :
    (transcriptRoute (some "abc123") (fun _ => .hangs)
        (fun _ => .returns "- x")).outcome = .pending ∧
    (transcriptRoute (some "abc123") (fun _ => .succeeds "\"hi\"")
        (fun _ => .hangs)).outcome = .pending ∧
    RunOutcome.pending ≠ .responds ⟨500, none, none, some "Failed to fetch transcript"⟩ ∧
    RunOutcome.pending ≠ .responds ⟨500, none, none, some "Failed to generate notes using Gemini"⟩ := by
  refine ⟨by decide, by decide, by decide, by decide⟩

/-- C7 (amended): neither external call has a bounded wait — the helper is
spawned with no timeout option and the provider call is awaited with none —
so a run whose fetcher never calls back, and a run whose summarizer never
resolves, stay pending forever instead of terminating with that stage's
failure kind. -/
theorem C7_amended_unbounded_wait (v w stdout : String) (tv : JsValue)
    (execPy execPy2 : String → ExecBehavior) (gemini gemini2 : String → GeminiBehavior)
    (hv : v ≠ "") (hw : w ≠ "")
    (h1 : execPy v = .hangs)
    (h2 : execPy2 w = .succeeds stdout)
    (hp : jsParse (jsTrim stdout) = some tv)
    (hg : gemini2 (promptFor tv.interp) = .hangs) :
    transcriptRoute (some v) execPy gemini = ⟨.pending, 1, 0⟩ ∧
    transcriptRoute (some w) execPy2 gemini2 = ⟨.pending, 1, 1⟩ := by
  constructor
  · unfold transcriptRoute
    simp [truthy, hv, h1]
  · rw [transcriptRoute_succeeds w stdout tv execPy2 gemini2 hw h2 hp, hg]

/-- C7 witness: the amended claim at concrete hanging collaborators. -/
theorem C7_amended_unbounded_wait_witness :
    transcriptRoute (some "abc123") (fun _ => ExecBehavior.hangs)
      (fun _ => GeminiBehavior.returns "- x") = ⟨.pending, 1, 0⟩ ∧
    transcriptRoute (some "xyz789") (fun _ => ExecBehavior.succeeds "\"hi\"")
      (fun _ => GeminiBehavior.hangs) = ⟨.pending, 1, 1⟩ :=
  C7_amended_unbounded_wait "abc123" "xyz789" "\"hi\"" (.str "hi")
    (fun _ => ExecBehavior.hangs) (fun _ => ExecBehavior.succeeds "\"hi\"")
    (fun _ => GeminiBehavior.returns "- x") (fun _ => GeminiBehavior.hangs)
    (by decide) (by decide) rfl rfl (by decide) rfl

/-- C8: after a successful fetch and decode, every rejection of the provider
call — whatever its message (auth, quota, network, empty response) — is
answered with the single 500 body `Failed to generate notes using Gemini`,
which carries no provider-specific subcode. -/
theorem C8_summarizer_failure_single_error (v stdout msg : String) (tv : JsValue)
    (execPy : String → ExecBehavior) (gemini : String → GeminiBehavior)
    (hv : v ≠ "") (hexec : execPy v = .succeeds stdout)
    (hparse : jsParse (jsTrim stdout) = some tv)
    (hgem : gemini (promptFor tv.interp) = .throws msg) :
    transcriptRoute (some v) execPy gemini
      = ⟨.responds ⟨500, none, none, some "Failed to generate notes using Gemini"⟩, 1, 1⟩ := by
  rw [transcriptRoute_succeeds v stdout tv execPy gemini hv hexec hparse, hgem]

/-- C8 witness: Scenario D, a quota-exceeded rejection after a successful
fetch. -/
theorem C8_summarizer_failure_single_error_witness :
    transcriptRoute (some "abc123") (fun _ => ExecBehavior.succeeds "\"hi\"")
      (fun _ => GeminiBehavior.throws "429 quota exceeded")
      = ⟨.responds ⟨500, none, none, some "Failed to generate notes using Gemini"⟩, 1, 1⟩ :=
  C8_summarizer_failure_single_error "abc123" "\"hi\"" "429 quota exceeded" (.str "hi")
    (fun _ => ExecBehavior.succeeds "\"hi\"")
    (fun _ => GeminiBehavior.throws "429 quota exceeded")
    (by decide) rfl (by decide) rfl

/-- C9: storage is per-id, whole-value, last-write-wins — after two successful
generations for the same video id the store holds exactly one entry under that
id and its value is the note of the latest completed generation. -/
theorem C9_store_last_write_wins (store : NoteStore) (markedParse : String → String)
    (vid n1 n2 : String) (h1 : n1 ≠ "") (h2 : n2 ≠ "") :
    keyCount ((popupCallback
        ((popupCallback store markedParse none ⟨some n1, none, some vid⟩).1)
        markedParse none ⟨some n2, none, some vid⟩).1) vid = 1 ∧
    storeGet ((popupCallback
        ((popupCallback store markedParse none ⟨some n1, none, some vid⟩).1)
        markedParse none ⟨some n2, none, some vid⟩).1) vid = some n2 := by
  have step : ∀ (s : NoteStore) (n : String), n ≠ "" →
      (popupCallback s markedParse none ⟨some n, none, some vid⟩).1 = storeSet s vid n := by
    intro s n hn
    unfold popupCallback
    simp [truthy, hn]
  rw [step _ n1 h1, step _ n2 h2]
  exact ⟨keyCount_storeSet _ _ _, storeGet_storeSet _ _ _⟩

/-- C9 witness: two generations for the same id at concrete inputs. -/
theorem C9_store_last_write_wins_witness :
    keyCount ((popupCallback
        ((popupCallback [] (fun s => s) none ⟨some "- first", none, some "abc123"⟩).1)
        (fun s => s) none ⟨some "- second", none, some "abc123"⟩).1) "abc123" = 1 ∧
    storeGet ((popupCallback
        ((popupCallback [] (fun s => s) none ⟨some "- first", none, some "abc123"⟩).1)
        (fun s => s) none ⟨some "- second", none, some "abc123"⟩).1) "abc123"
      = some "- second" :=
  C9_store_last_write_wins [] (fun s => s) "abc123" "- first" "- second"
    (by decide) (by decide)

/-- C10: on every successful generation the videoId the bridge sends to the
UI is the page URL's `v` parameter — the backend body's own videoId field is
never read, whatever it holds — and the popup stores the note under exactly
that videoId. -/
theorem C10_stored_key_is_page_videoId
    (pageParams : List (String × String)) (backend : String → FetchBehavior)
    (d : BackendData) (pv n : String) (store : NoteStore) (markedParse : String → String)
    (hp : getParam pageParams "v" = some pv) (hpv : pv ≠ "")
    (hb : backend pv = .ok d) (hn : d.notes = some n) (hne : n ≠ "") :
    contentListener "getTranscript" pageParams backend = ⟨some (.notes n pv), true⟩ ∧
    (popupCallback store markedParse none ((BridgeResponse.notes n pv).toRecord)).1
      = storeSet store pv n := by
  constructor
  · unfold contentListener
    simp [truthy, hp, hpv, hb, hn, hne]
  · unfold popupCallback BridgeResponse.toRecord
    simp [truthy, hne]

/-- C10 witness: the backend body carries a different videoId, yet the bridge
reports and the popup stores under the page's id. -/
theorem C10_stored_key_is_page_videoId_witness :
    contentListener "getTranscript" [("v", "abc123")]
      (fun _ => FetchBehavior.ok ⟨some "- point one", none, some "SOMETHING-ELSE"⟩)
      = ⟨some (.notes "- point one" "abc123"), true⟩ ∧
    (popupCallback [] (fun s => s) none
        ((BridgeResponse.notes "- point one" "abc123").toRecord)).1
      = storeSet [] "abc123" "- point one" :=
  C10_stored_key_is_page_videoId [("v", "abc123")]
    (fun _ => FetchBehavior.ok ⟨some "- point one", none, some "SOMETHING-ELSE"⟩)
    ⟨some "- point one", none, some "SOMETHING-ELSE"⟩ "abc123" "- point one" []
    (fun s => s) rfl (by decide) rfl rfl (by decide)
